import Mathlib

/-!
# CityBites MCP server — verification of the cache + enrichment pipeline core

Shallow embedding of `src/index.ts` (the four tool handlers, the in-memory
TTL cache, the content extractor and the image-enrichment step).  External
HTTP services (web search, LLM completion, image search, page fetch) are
modelled as oracles supplied to each pipeline invocation; `Date.now()` is an
explicit `now : Nat` argument (milliseconds); the process environment is an
explicit record of `Option String` values.  Every pipeline function returns
the tool result, the updated cache, and the number of external network calls
issued, so that short-circuiting claims are expressible.
-/

namespace CityBites

/-- JSON values, as produced by `JSON.parse` of the completion content
(numbers restricted to the integers actually manipulated by the code, which
only ever defaults them and never computes with them). -/
inductive Json where
  | null
  | str (s : String)
  | num (n : Int)
  | bool (b : Bool)
  | arr (xs : List Json)
  | obj (fields : List (String × Json))

/-- First-match field lookup in an object's field list. -/
def lookupField : List (String × Json) → String → Option Json
  | [], _ => none
  | (k, v) :: rest, key => if k = key then some v else lookupField rest key

/-- JavaScript property access `j.key`: a value on objects, `undefined`
(here `none`) on everything else. -/
def Json.get : Json → String → Option Json
  | Json.obj fs, key => lookupField fs key
  | _, _ => none

/-- JavaScript nullish coalescing `a ?? d` applied to a property access:
`undefined` (`none`) and `null` both fall back to the default. -/
def coalesce : Option Json → Json → Json
  | none, d => d
  | some Json.null, d => d
  | some j, _ => j

/-- `Array.isArray`. -/
def Json.isArr : Json → Bool
  | Json.arr _ => true
  | _ => false

/-- JavaScript truthiness of an environment variable (`process.env.X`):
falsy when unset or the empty string. -/
def truthy : Option String → Bool
  | none => false
  | some s => !(s == "")

/-- The environment variables read by the handlers. -/
structure Env where
  tavilyKey : Option String
  openaiKey : Option String
  unsplashKey : Option String
deriving Repr

-- ── TTL cache (src/index.ts lines 31–40) ────────────────────────────────────

/-- One cache entry: `{ data, expires }` (line 32). -/
structure CacheEntry (α : Type) where
  data : α
  expires : Nat
deriving Repr, DecidableEq

/-- The `Map<string, {data, expires}>`, as an association list where `set`
prepends and lookup takes the first match (so a later `set` overwrites). -/
def Cache (α : Type) : Type := List (String × CacheEntry α)

/-- `Map.get`: the entry currently stored under a key, if any. -/
def cacheLookup {α : Type} : Cache α → String → Option (CacheEntry α)
  | [], _ => none
  | (k, e) :: rest, key => if k = key then some e else cacheLookup rest key

/-- `getCache` (lines 33–37): return the data only while
`entry.expires > Date.now()`; an expired or missing entry yields `null`.
The cache itself is not modified (no eviction). -/
def getCache {α : Type} (c : Cache α) (key : String) (now : Nat) : Option α :=
  match cacheLookup c key with
  | some e => if now < e.expires then some e.data else none
  | none => none

/-- The default TTL of `setCache`: `10 * 60 * 1000` ms (line 38). -/
def defaultTtlMs : Nat := 10 * 60 * 1000

/-- `setCache` (lines 38–40): store `{ data, expires: Date.now() + ttlMs }`. -/
def setCache {α : Type} (c : Cache α) (key : String) (data : α) (now : Nat)
    (ttlMs : Nat) : Cache α :=
  (key, ⟨data, now + ttlMs⟩) :: c

-- ── Cache-key derivation (lines 63, 139, 250, 384) ──────────────────────────

/-- `String.prototype.toLowerCase()`, characterwise. -/
def jsToLower (s : String) : String := ⟨s.data.map Char.toLower⟩

/-- Key of `search-city-food` (line 63). -/
def searchCityFoodKey (city : String) : String :=
  "restaurants:" ++ jsToLower city

/-- Key of `get-menu-dishes` (line 139). -/
def menuKey (city restaurantName : String) : String :=
  "menu:" ++ jsToLower city ++ ":" ++ jsToLower restaurantName

/-- Key of `build-taste-itinerary` (line 250); `preferences ?? ""`. -/
def itineraryKey (city : String) (preferences : Option String) : String :=
  "itinerary:" ++ jsToLower city ++ ":" ++ jsToLower (preferences.getD "")

/-- Key of `explore-city-food-map` (line 384), with `dayCount = numDays ?? 1`
already resolved. -/
def foodMapKey (city : String) (preferences : Option String) (dayCount : Nat) :
    String :=
  "foodmap:" ++ jsToLower city ++ ":" ++ jsToLower (preferences.getD "") ++
    ":" ++ toString dayCount ++ "d"

-- ── Structured-extraction shape handling ────────────────────────────────────

/-- Lines 100–102 of `search-city-food`:
`restaurants = (parsed.restaurants ?? parsed); if (!Array.isArray(restaurants)) restaurants = []`. -/
def coerceRestaurants (parsed : Json) : List Json :=
  match coalesce (parsed.get "restaurants") parsed with
  | Json.arr xs => xs
  | _ => []

/-- How an invocation of `get-menu-dishes` ends, as far as the shape of the
parsed `dishes` field is concerned. -/
inductive ShapeOutcome where
  | records (xs : List Json)
  | errorReturned
  | exceptionEscapes

/-- Lines 193–194 of `get-menu-dishes`: `dishes = (parsed.dishes ?? [])`, an
unchecked cast.  A present non-array value is not coerced: the later
`dishes.map` calls then throw a `TypeError` — inside the `try` (line 199)
when image enrichment is configured, so the handler returns its catch-all
error; otherwise first at the summary line 223, outside the `try`, so the
exception escapes the handler. -/
def menuDishesOutcome (unsplashConfigured : Bool) (parsed : Json) :
    ShapeOutcome :=
  match coalesce (parsed.get "dishes") (Json.arr []) with
  | Json.arr xs => ShapeOutcome.records xs
  | _ =>
    if unsplashConfigured then ShapeOutcome.errorReturned
    else ShapeOutcome.exceptionEscapes

-- ── Content extractor (get-menu-dishes, lines 151–166) ──────────────────────

/-- A parsed HTML document, as produced by `parse(html)` of
`node-html-parser` (which parses best-effort and does not throw). -/
inductive Html where
  | element (tag : String) (children : List Html)
  | textNode (s : String)

/-- The selector of line 160: `"script, style, nav, footer, header"`. -/
def bannedTags : List String := ["script", "style", "nav", "footer", "header"]

mutual

/-- `root.querySelectorAll(...).forEach((el) => el.remove())` (line 160):
drop every element whose tag is in `bannedTags`, together with its subtree. -/
def stripNode : Html → List Html
  | Html.textNode s => [Html.textNode s]
  | Html.element tag children =>
    if tag ∈ bannedTags then []
    else [Html.element tag (stripList children)]

def stripList : List Html → List Html
  | [] => []
  | n :: rest => stripNode n ++ stripList rest

end

mutual

/-- The text of the stripped tree (`root.structuredText`, line 161), modelled
as the concatenation of the remaining text nodes — the block separators the
library inserts are whitespace and are normalised away by the following
`replace(/\s+/g, " ")` anyway. -/
def textOfNode : Html → String
  | Html.textNode s => s
  | Html.element _ children => textOfList children

def textOfList : List Html → String
  | [] => ""
  | n :: rest => textOfNode n ++ textOfList rest

end

/-- `replace(/\s+/g, " ")` on a character list; the flag records whether the
previous character belonged to a whitespace run already replaced. -/
def collapseWsAux : Bool → List Char → List Char
  | _, [] => []
  | prevWs, c :: rest =>
    if c.isWhitespace then
      if prevWs then collapseWsAux true rest
      else ' ' :: collapseWsAux true rest
    else c :: collapseWsAux false rest

/-- `s.replace(/\s+/g, " ")`: collapse every whitespace run to one space. -/
def collapseWs (s : String) : String :=
  ⟨collapseWsAux false s.data⟩

/-- `s.slice(0, n)`: the first `n` characters. -/
def jsSlice (s : String) (n : Nat) : String :=
  ⟨s.data.take n⟩

/-- Whether the first list is an initial segment of the second. -/
def charsPrefix : List Char → List Char → Bool
  | [], _ => true
  | _ :: _, [] => false
  | p :: ps, c :: cs2 => p == c && charsPrefix ps cs2

/-- `s.startsWith(pre)`. -/
def jsStartsWith (s pre : String) : Bool :=
  charsPrefix pre.data s.data

/-- Whether a character list has no two adjacent whitespace characters
(the shape `replace(/\s+/g, " ")` guarantees). -/
def noDoubleWs : List Char → Bool
  | c1 :: c2 :: rest =>
    !(c1.isWhitespace && c2.isWhitespace) && noDoubleWs (c2 :: rest)
  | _ => true

/-- Line 161: `root.structuredText.replace(/\s+/g, " ").slice(0, 4000)`,
after the banned elements were removed. -/
def extractPage (doc : Html) : String :=
  jsSlice (collapseWs (textOfList (stripList [doc]))) 4000

/-- The `menuContext` produced by the page-fetch branch (lines 152–165).
The fetch oracle yields the HTTP status and the parsed document when the
request resolved, or an error when it rejected (network failure, 8-second
timeout) or `res.text()` threw.  The code never inspects the status, so a
non-2xx response's body is extracted like any other; only a thrown error is
caught and leaves the context empty. -/
def pageMenuContext (fetchResult : Except Unit (Nat × Html)) : String :=
  match fetchResult with
  | Except.ok (_status, doc) =>
    "\n\nRestaurant website content:\n" ++ extractPage doc
  | Except.error _ => ""

-- ── Image enrichment ────────────────────────────────────────────────────────

/-- The value the enrichment code derives from one Unsplash lookup:
`imgData.results?.[0]?.urls?.small ?? ""` on success (the oracle's
`Option String` is that optional small-image URL), and `""` when the fetch
or its JSON decoding threw (the surrounding `catch`). -/
def imageOracleResult (image : String → Except Unit (Option String))
    (q : String) : String :=
  match image q with
  | Except.ok r => r.getD ""
  | Except.error _ => ""

/-- The `Dish` record (lines 518–524); `imageUrl?: string` is optional. -/
structure Dish where
  name : String
  description : String
  mealType : String
  imageQuery : String
  imageUrl : Option String
deriving DecidableEq, Repr

/-- One dish's enrichment (lines 199–210): spread the dish and set
`imageUrl` from the lookup, `""` when it fails or yields no result. -/
def enrichDish (image : String → Except Unit (Option String)) (d : Dish) :
    Dish :=
  { d with imageUrl := some (imageOracleResult image d.imageQuery) }

/-- Lines 197–212: the whole enrichment step runs only when
`process.env.UNSPLASH_ACCESS_KEY` is truthy; otherwise the parsed dishes are
returned untouched. -/
def enrichDishes (unsplashKey : Option String)
    (image : String → Except Unit (Option String)) (dishes : List Dish) :
    List Dish :=
  if truthy unsplashKey then dishes.map (enrichDish image) else dishes

-- ── build-taste-itinerary records (lines 307–342) ───────────────────────────

/-- A stop as parsed from the completion JSON, before the rebuild of lines
328–340: `lat`, `lng` and `imageQuery` may be absent. -/
structure RawItineraryStop where
  timeSlot : String
  timeRange : String
  restaurantName : String
  neighborhood : String
  dish : String
  dishDescription : String
  culturalContext : String
  walkingNote : String
  lat : Option Int
  lng : Option Int
  imageQuery : Option String
deriving DecidableEq, Repr

/-- The `ItineraryStop` record (lines 526–538). -/
structure ItineraryStop where
  timeSlot : String
  timeRange : String
  restaurantName : String
  neighborhood : String
  dish : String
  dishDescription : String
  culturalContext : String
  walkingNote : String
  lat : Int
  lng : Int
  dishImageUrl : String
deriving DecidableEq, Repr

/-- Lines 313–342: build one returned stop.  `dishImageUrl` starts `""` and
is looked up only `if (process.env.UNSPLASH_ACCESS_KEY && stop.imageQuery)`;
`lat: stop.lat ?? 0`, `lng: stop.lng ?? 0`. -/
def buildItineraryStop (unsplashKey : Option String)
    (image : String → Except Unit (Option String)) (s : RawItineraryStop) :
    ItineraryStop :=
  let dishImageUrl :=
    if truthy unsplashKey && truthy s.imageQuery then
      imageOracleResult image (s.imageQuery.getD "")
    else ""
  { timeSlot := s.timeSlot
    timeRange := s.timeRange
    restaurantName := s.restaurantName
    neighborhood := s.neighborhood
    dish := s.dish
    dishDescription := s.dishDescription
    culturalContext := s.culturalContext
    walkingNote := s.walkingNote
    lat := s.lat.getD 0
    lng := s.lng.getD 0
    dishImageUrl := dishImageUrl }

/-- The completion JSON of `build-taste-itinerary`, decoded to the shape the
code reads (lines 307–310): `centerLat`/`centerLng`/`stops` may be absent. -/
structure ItineraryParsed where
  centerLat : Option Int
  centerLng : Option Int
  stops : Option (List RawItineraryStop)
deriving DecidableEq, Repr

/-- The payload assembled on a miss (lines 308–342):
`centerLat = parsed.centerLat ?? 0`, `centerLng = parsed.centerLng ?? 0`,
`stops` rebuilt from `parsed.stops ?? []`. -/
structure ItineraryPayload where
  stops : List ItineraryStop
  centerLat : Int
  centerLng : Int
deriving DecidableEq, Repr

def buildItinerary (unsplashKey : Option String)
    (image : String → Except Unit (Option String)) (p : ItineraryParsed) :
    ItineraryPayload :=
  { stops := (p.stops.getD []).map (buildItineraryStop unsplashKey image)
    centerLat := p.centerLat.getD 0
    centerLng := p.centerLng.getD 0 }

-- ── explore-city-food-map records (lines 360, 446–489, 540–552) ─────────────

/-- A map stop as parsed from the completion JSON (the fields lines 471–482
read, optional where the code applies `?? `or passes through). -/
structure RawMapStop where
  name : String
  neighborhood : String
  cuisineType : String
  lat : Option Int
  lng : Option Int
  signatureDish : String
  dishDescription : String
  whyLocal : Option String
  timeSlot : Option String
  timeRange : Option String
  imageQuery : Option String
deriving DecidableEq, Repr

/-- The `MapStop` record (lines 540–552) as the handler builds it (lines
471–483): `lat`/`lng` are passed through unchanged (no defaulting),
`whyLocal ?? ""`, `timeSlot ?? ""`, `timeRange ?? ""`. -/
structure MapStop where
  name : String
  neighborhood : String
  cuisineType : String
  lat : Option Int
  lng : Option Int
  signatureDish : String
  dishDescription : String
  dishImageUrl : String
  whyLocal : String
  timeSlot : String
  timeRange : String
deriving DecidableEq, Repr

/-- Lines 457–483: build one map stop, looking up the image only
`if (process.env.UNSPLASH_ACCESS_KEY && stop.imageQuery)`. -/
def buildMapStop (unsplashKey : Option String)
    (image : String → Except Unit (Option String)) (s : RawMapStop) :
    MapStop :=
  let dishImageUrl :=
    if truthy unsplashKey && truthy s.imageQuery then
      imageOracleResult image (s.imageQuery.getD "")
    else ""
  { name := s.name
    neighborhood := s.neighborhood
    cuisineType := s.cuisineType
    lat := s.lat
    lng := s.lng
    signatureDish := s.signatureDish
    dishDescription := s.dishDescription
    dishImageUrl := dishImageUrl
    whyLocal := s.whyLocal.getD ""
    timeSlot := s.timeSlot.getD ""
    timeRange := s.timeRange.getD "" }

/-- A parsed day (line 449): `rawDay.stops ?? []` may be absent. -/
structure RawDay where
  day : Int
  label : String
  stops : Option (List RawMapStop)
deriving DecidableEq, Repr

/-- `DayItinerary` (line 360). -/
structure DayItinerary where
  day : Int
  label : String
  stops : List MapStop
deriving DecidableEq, Repr

/-- The loop of lines 452–489: for each raw day build its stops, push the
day onto `days` and append the day's stops onto the flat `stops` list. -/
def buildFoodMapDays (unsplashKey : Option String)
    (image : String → Except Unit (Option String)) :
    List RawDay → List DayItinerary × List MapStop
  | [] => ([], [])
  | rd :: rest =>
    let dayStops := (rd.stops.getD []).map (buildMapStop unsplashKey image)
    let built := buildFoodMapDays unsplashKey image rest
    (⟨rd.day, rd.label, dayStops⟩ :: built.1, dayStops ++ built.2)

-- ── Pipeline handlers ───────────────────────────────────────────────────────

/-- What a handler hands back: `error(msg)` or `widget({props, ...})`.  The
plain-text summary line is a pure function of the props and the inputs and
is not modelled separately. -/
inductive ToolResult (α : Type) where
  | err (msg : String)
  | ok (props : α)

/-- Per-stop Unsplash calls actually issued: one per record for which the
guard `process.env.UNSPLASH_ACCESS_KEY && stop.imageQuery` holds. -/
def countStopImageCalls (unsplashKey : Option String)
    (queries : List (Option String)) : Nat :=
  (queries.filter (fun q => truthy unsplashKey && truthy q)).length

-- ── TOOL 1: search-city-food (lines 44–115) ─────────────────────────────────

/-- The external world one `search-city-food` invocation sees: the Tavily
search outcome (its result items are opaque snippets) and the completion
outcome, already `JSON.parse`d (an error covers an API failure or content
that fails to parse, both landing in the same `catch`). -/
structure SearchWorld where
  search : Except Unit (List String)
  completion : Except Unit Json

/-- The widget props of `search-city-food` (line 111); the restaurant list
is the unvalidated cast of the coerced JSON array (line 101). -/
structure SearchProps where
  city : String
  restaurants : List Json

/-- Lines 59–114.  Returns the result, the updated cache, and the number of
external network calls issued. -/
def searchCityFood (env : Env) (w : SearchWorld) (c : Cache (List Json))
    (now : Nat) (city : String) :
    ToolResult SearchProps × Cache (List Json) × Nat :=
  if !truthy env.tavilyKey then
    (ToolResult.err "TAVILY_API_KEY not configured.", c, 0)
  else if !truthy env.openaiKey then
    (ToolResult.err "OPENAI_API_KEY not configured.", c, 0)
  else
    let cacheKey := searchCityFoodKey city
    match getCache c cacheKey now with
    | some restaurants => (ToolResult.ok ⟨city, restaurants⟩, c, 0)
    | none =>
      match w.search with
      | Except.error _ =>
        (ToolResult.err ("Failed to search for restaurants in " ++ city), c, 1)
      | Except.ok _ =>
        match w.completion with
        | Except.error _ =>
          (ToolResult.err ("Failed to search for restaurants in " ++ city),
            c, 2)
        | Except.ok parsed =>
          let restaurants := coerceRestaurants parsed
          (ToolResult.ok ⟨city, restaurants⟩,
            setCache c cacheKey restaurants now defaultTtlMs, 2)

-- ── TOOL 2: get-menu-dishes (lines 119–226) ─────────────────────────────────

/-- The completion JSON of `get-menu-dishes`, decoded to the shape the code
casts it to (`parsed.dishes ?? []`, line 194); a raw non-array `dishes`
value is handled separately by `menuDishesOutcome`. -/
structure MenuParsed where
  dishes : Option (List Dish)

/-- The external world one `get-menu-dishes` invocation sees. -/
structure MenuWorld where
  pageFetch : Except Unit (Nat × Html)
  menuSearch : Except Unit (List String)
  completion : Except Unit MenuParsed
  image : String → Except Unit (Option String)

/-- The widget props of `get-menu-dishes` (line 222). -/
structure MenuProps where
  restaurantName : String
  city : String
  dishes : List Dish
deriving DecidableEq, Repr

/-- Lines 136–225. -/
def getMenuDishes (env : Env) (w : MenuWorld) (c : Cache (List Dish))
    (now : Nat) (restaurantName city : String) (url : Option String) :
    ToolResult MenuProps × Cache (List Dish) × Nat :=
  if !truthy env.openaiKey then
    (ToolResult.err "OPENAI_API_KEY not configured.", c, 0)
  else
    let cacheKey := menuKey city restaurantName
    match getCache c cacheKey now with
    | some dishes => (ToolResult.ok ⟨restaurantName, city, dishes⟩, c, 0)
    | none =>
      -- lines 151–166: page-fetch context (the fetch counts as one call)
      let fetchAttempted := truthy url && jsStartsWith (url.getD "") "http"
      let fetchCalls := if fetchAttempted then 1 else 0
      let menuContext := if fetchAttempted then pageMenuContext w.pageFetch
        else ""
      -- lines 168–176: web-search fallback when the context is empty
      if menuContext == "" && truthy env.tavilyKey then
        match w.menuSearch with
        | Except.error _ =>
          (ToolResult.err ("Failed to get menu for " ++ restaurantName), c,
            fetchCalls + 1)
        | Except.ok _ =>
          match w.completion with
          | Except.error _ =>
            (ToolResult.err ("Failed to get menu for " ++ restaurantName), c,
              fetchCalls + 2)
          | Except.ok parsed =>
            let dishes0 := parsed.dishes.getD []
            let dishes := enrichDishes env.unsplashKey w.image dishes0
            let imageCalls :=
              if truthy env.unsplashKey then dishes0.length else 0
            (ToolResult.ok ⟨restaurantName, city, dishes⟩,
              setCache c cacheKey dishes now defaultTtlMs,
              fetchCalls + 2 + imageCalls)
      else
        match w.completion with
        | Except.error _ =>
          (ToolResult.err ("Failed to get menu for " ++ restaurantName), c,
            fetchCalls + 1)
        | Except.ok parsed =>
          let dishes0 := parsed.dishes.getD []
          let dishes := enrichDishes env.unsplashKey w.image dishes0
          let imageCalls :=
            if truthy env.unsplashKey then dishes0.length else 0
          (ToolResult.ok ⟨restaurantName, city, dishes⟩,
            setCache c cacheKey dishes now defaultTtlMs,
            fetchCalls + 1 + imageCalls)

-- ── TOOL 3: build-taste-itinerary (lines 230–356) ───────────────────────────

/-- The external world one `build-taste-itinerary` invocation sees: the two
parallel Tavily searches (both are issued before either outcome is seen),
the completion, and the per-query image lookups. -/
structure ItineraryWorld where
  foodSearch : Except Unit (List String)
  cultureSearch : Except Unit (List String)
  completion : Except Unit ItineraryParsed
  image : String → Except Unit (Option String)

/-- The widget props of `build-taste-itinerary` (line 352):
`preferences ?? ""`. -/
structure ItineraryProps where
  city : String
  preferences : String
  stops : List ItineraryStop
  centerLat : Int
  centerLng : Int
deriving DecidableEq, Repr

/-- Lines 246–355. -/
def buildTasteItinerary (env : Env) (w : ItineraryWorld)
    (c : Cache ItineraryPayload) (now : Nat) (city : String)
    (preferences : Option String) :
    ToolResult ItineraryProps × Cache ItineraryPayload × Nat :=
  if !truthy env.openaiKey then
    (ToolResult.err "OPENAI_API_KEY not configured.", c, 0)
  else if !truthy env.tavilyKey then
    (ToolResult.err "TAVILY_API_KEY not configured.", c, 0)
  else
    let cacheKey := itineraryKey city preferences
    match getCache c cacheKey now with
    | some p =>
      (ToolResult.ok ⟨city, preferences.getD "", p.stops, p.centerLat,
        p.centerLng⟩, c, 0)
    | none =>
      match w.foodSearch, w.cultureSearch with
      | Except.ok _, Except.ok _ =>
        match w.completion with
        | Except.error _ =>
          (ToolResult.err ("Failed to build itinerary for " ++ city), c, 3)
        | Except.ok parsed =>
          let payload := buildItinerary env.unsplashKey w.image parsed
          let imageCalls := countStopImageCalls env.unsplashKey
            ((parsed.stops.getD []).map RawItineraryStop.imageQuery)
          (ToolResult.ok ⟨city, preferences.getD "", payload.stops,
            payload.centerLat, payload.centerLng⟩,
            setCache c cacheKey payload now defaultTtlMs, 3 + imageCalls)
      | _, _ =>
        (ToolResult.err ("Failed to build itinerary for " ++ city), c, 2)

-- ── TOOL 4: explore-city-food-map (lines 362–505) ───────────────────────────

/-- The completion JSON of `explore-city-food-map`, decoded to the shape the
code reads (lines 446–449). -/
structure FoodMapParsed where
  centerLat : Option Int
  centerLng : Option Int
  days : Option (List RawDay)

/-- The external world one `explore-city-food-map` invocation sees. -/
structure FoodMapWorld where
  search : Except Unit (List String)
  completion : Except Unit FoodMapParsed
  image : String → Except Unit (Option String)

/-- The payload cached on a miss (line 491). -/
structure FoodMapPayload where
  stops : List MapStop
  days : List DayItinerary
  centerLat : Int
  centerLng : Int
deriving DecidableEq, Repr

/-- The widget props of `explore-city-food-map` (line 499). -/
structure FoodMapProps where
  city : String
  centerLat : Int
  centerLng : Int
  stops : List MapStop
  days : List DayItinerary
deriving DecidableEq, Repr

/-- Unsplash calls issued by the day loop (lines 455–489). -/
def countFoodMapImageCalls (unsplashKey : Option String)
    (rawDays : List RawDay) : Nat :=
  (rawDays.map (fun rd =>
    countStopImageCalls unsplashKey ((rd.stops.getD []).map
      RawMapStop.imageQuery))).sum

/-- Lines 379–504. -/
def exploreCityFoodMap (env : Env) (w : FoodMapWorld)
    (c : Cache FoodMapPayload) (now : Nat) (city : String)
    (preferences : Option String) (numDays : Option Nat) :
    ToolResult FoodMapProps × Cache FoodMapPayload × Nat :=
  if !truthy env.tavilyKey then
    (ToolResult.err "TAVILY_API_KEY not configured.", c, 0)
  else if !truthy env.openaiKey then
    (ToolResult.err "OPENAI_API_KEY not configured.", c, 0)
  else
    let dayCount := numDays.getD 1
    let cacheKey := foodMapKey city preferences dayCount
    match getCache c cacheKey now with
    | some p =>
      (ToolResult.ok ⟨city, p.centerLat, p.centerLng, p.stops, p.days⟩, c, 0)
    | none =>
      match w.search with
      | Except.error _ =>
        (ToolResult.err ("Failed to build food map for " ++ city), c, 1)
      | Except.ok _ =>
        match w.completion with
        | Except.error _ =>
          (ToolResult.err ("Failed to build food map for " ++ city), c, 2)
        | Except.ok parsed =>
          let rawDays := parsed.days.getD []
          let built := buildFoodMapDays env.unsplashKey w.image rawDays
          let payload : FoodMapPayload :=
            ⟨built.2, built.1, parsed.centerLat.getD 0,
              parsed.centerLng.getD 0⟩
          let imageCalls := countFoodMapImageCalls env.unsplashKey rawDays
          (ToolResult.ok ⟨city, payload.centerLat, payload.centerLng,
            payload.stops, payload.days⟩,
            setCache c cacheKey payload now defaultTtlMs, 2 + imageCalls)

-- ── Invariant predicates and test fixtures ───────────────────────────────

/-- The invariant tying the two output representations of one food-map
payload: the flat stop list is the concatenation of the days' stop lists in
order. -/
def FoodMapPayload.consistent (p : FoodMapPayload) : Prop :=
  p.stops = (p.days.map DayItinerary.stops).flatten

/-- Every payload stored in the food-map cache satisfies `consistent`. -/
def cacheConsistent (c : Cache FoodMapPayload) : Prop :=
  ∀ (s : String) (e : CacheEntry FoodMapPayload),
    cacheLookup c s = some e → FoodMapPayload.consistent e.data

/-- The image oracle of the isolation witness: the lookup for the second
record's query fails, the others succeed. -/
def isolationOracle : String → Except Unit (Option String) :=
  fun q => if q = "q2" then Except.error () else
    Except.ok (some ("https://img/" ++ q))

/-- Fixture: an environment with all three credentials configured. -/
def envAll : Env := ⟨some "tvly-key", some "sk-key", some "unsplash-key"⟩

/-- Fixture: one raw map stop. -/
def fmStop (nm q : String) : RawMapStop :=
  ⟨nm, "Centro", "roman", some 41, some 12, "carbonara", "pasta", some "local",
    some "Lunch", some "12:00", some q⟩

/-- Fixture: three raw days for a 3-day map request. -/
def fmRawDays : List RawDay :=
  [⟨1, "Day 1", some [fmStop "a" "q1", fmStop "b" "q2"]⟩,
   ⟨2, "Day 2", some [fmStop "c" "q3"]⟩,
   ⟨3, "Day 3", some [fmStop "d" "q1", fmStop "e" "q3"]⟩]

/-- Fixture: the world seen by the food-map witness invocation. -/
def fmWorld3 : FoodMapWorld :=
  ⟨Except.ok ["snippet"], Except.ok ⟨some 41, some 12, some fmRawDays⟩,
    isolationOracle⟩

/-- The props the witness invocation returns. -/
def fmWitnessProps : FoodMapProps :=
  ⟨"Rome", 41, 12,
    (buildFoodMapDays (some "unsplash-key") isolationOracle fmRawDays).2,
    (buildFoodMapDays (some "unsplash-key") isolationOracle fmRawDays).1⟩

/-- Fixture: a dish as parsed from the completion, no `imageUrl` yet. -/
def dishNata : Dish :=
  ⟨"Pastel de Nata", "custard tart", "snack", "pastel de nata", none⟩

/-- Fixture: the world seen by the menu witness invocations. -/
def menuWorld0 : MenuWorld :=
  ⟨Except.error (), Except.ok ["search content"],
    Except.ok ⟨some [dishNata]⟩, isolationOracle⟩

/-- Fixture: one raw itinerary stop. -/
def itinStop1 : RawItineraryStop :=
  ⟨"Morning Coffee", "8:00", "Cafe A", "Alfama", "bica", "espresso", "ctx",
    "walk", some 38, some (-9), some "espresso cup"⟩

/-- Fixture: the world seen by the itinerary witness invocations. -/
def itinWorld0 : ItineraryWorld :=
  ⟨Except.ok ["food"], Except.ok ["culture"],
    Except.ok ⟨some 38, some (-9), some [itinStop1]⟩, isolationOracle⟩

/-- Fixture: the world seen by the search witness invocations. -/
def searchWorld0 : SearchWorld :=
  ⟨Except.ok ["snippet"],
    Except.ok (Json.obj [("restaurants", Json.arr [Json.str "r1"])])⟩

-- ── Helper lemmas ───────────────────────────────────────────────────────────

theorem truthy_none : truthy none = false := rfl

theorem cacheLookup_setCache_self {α : Type} (c : Cache α) (k : String)
    (v : α) (t ttl : Nat) :
    cacheLookup (setCache c k v t ttl) k = some ⟨v, t + ttl⟩ := by
  simp [setCache, cacheLookup]

theorem getCache_setCache_fresh {α : Type} (c : Cache α) (k : String) (v : α)
    (t0 t1 ttl : Nat) (h : t1 < t0 + ttl) :
    getCache (setCache c k v t0 ttl) k t1 = some v := by
  simp [getCache, cacheLookup_setCache_self, h]

theorem getCache_setCache_stale {α : Type} (c : Cache α) (k : String) (v : α)
    (t0 t1 ttl : Nat) (h : t0 + ttl ≤ t1) :
    getCache (setCache c k v t0 ttl) k t1 = none := by
  simp [getCache, cacheLookup_setCache_self, Nat.not_lt.mpr h]

-- ── C1: TTL cache contract ──────────────────────────────────────────────────

/-- C1.  The TTL cache contract: `setCache` defaults to a 10-minute TTL
(`defaultTtlMs`); `set(k,v,ttl)` followed by `get(k)` strictly before the
ttl elapsed returns `v`; `get(k)` at or after expiry, or on a key never
set, returns absent; a lookup never returns data from an entry whose
`expires ≤ now`; an expired entry is treated as absent while remaining
stored (`getCache` takes the cache as a value and deletes nothing). -/
theorem cache_ttl_contract {α : Type} (c : Cache α) (k : String) (v : α)
    (ttl t0 t1 : Nat) :
    defaultTtlMs = 10 * 60 * 1000 ∧
    (t1 < t0 + ttl → getCache (setCache c k v t0 ttl) k t1 = some v) ∧
    (t0 + ttl ≤ t1 → getCache (setCache c k v t0 ttl) k t1 = none) ∧
    (cacheLookup c k = none → getCache c k t1 = none) ∧
    (∀ e : CacheEntry α, cacheLookup c k = some e → e.expires ≤ t1 →
      getCache c k t1 = none ∧ cacheLookup c k = some e) ∧
    (∀ w : α, getCache c k t1 = some w →
      ∃ e : CacheEntry α, cacheLookup c k = some e ∧ e.data = w ∧
        t1 < e.expires) := by
  refine ⟨rfl, getCache_setCache_fresh c k v t0 t1 ttl,
    getCache_setCache_stale c k v t0 t1 ttl, ?_, ?_, ?_⟩
  · intro h
    simp [getCache, h]
  · intro e he hexp
    exact ⟨by simp [getCache, he, Nat.not_lt.mpr hexp], he⟩
  · intro w hw
    unfold getCache at hw
    cases he : cacheLookup c k with
    | none => rw [he] at hw; exact absurd hw (by simp)
    | some e =>
      rw [he] at hw
      by_cases hlt : t1 < e.expires
      · refine ⟨e, rfl, ?_, hlt⟩
        have : some e.data = some w := by simpa [hlt] using hw
        exact Option.some_injective _ this
      · simp [hlt] at hw

/-- Witness for C1 at concrete inputs: a fresh read one millisecond before
expiry hits, a read exactly at expiry misses, and a never-set key misses. -/
theorem cache_ttl_contract_witness :
    getCache (setCache ([] : Cache Nat) "k" 42 0 defaultTtlMs) "k" 599999 =
      some 42 ∧
    getCache (setCache ([] : Cache Nat) "k" 42 0 defaultTtlMs) "k" 600000 =
      none ∧
    getCache ([] : Cache Nat) "k" 7 = none :=
  ⟨(cache_ttl_contract [] "k" 42 defaultTtlMs 0 599999).2.1 (by decide),
   (cache_ttl_contract [] "k" 42 defaultTtlMs 0 600000).2.2.1 (by decide),
   (cache_ttl_contract [] "k" 42 defaultTtlMs 0 7).2.2.2.1 rfl⟩

-- ── C8: cache key derivation ────────────────────────────────────────────────

/-- C8.  Cache keys are deterministic (pure functions of the inputs), built
as a colon-delimited composition of a per-tool name and the lower-cased
discriminating parameters (city, restaurant name, preference string, day
count), so inputs differing only in letter case derive the same key and
therefore hit the same cache entry. -/
theorem cache_key_normalization (c1 c2 n1 n2 : String) (p1 p2 : Option String)
    (d : Nat) :
    searchCityFoodKey c1 = "restaurants:" ++ jsToLower c1 ∧
    menuKey c1 n1 = "menu:" ++ jsToLower c1 ++ ":" ++ jsToLower n1 ∧
    itineraryKey c1 p1 =
      "itinerary:" ++ jsToLower c1 ++ ":" ++ jsToLower (p1.getD "") ∧
    foodMapKey c1 p1 d =
      "foodmap:" ++ jsToLower c1 ++ ":" ++ jsToLower (p1.getD "") ++ ":" ++
        toString d ++ "d" ∧
    (jsToLower c1 = jsToLower c2 →
      searchCityFoodKey c1 = searchCityFoodKey c2) ∧
    (jsToLower c1 = jsToLower c2 → jsToLower n1 = jsToLower n2 →
      menuKey c1 n1 = menuKey c2 n2) ∧
    (jsToLower c1 = jsToLower c2 →
      jsToLower (p1.getD "") = jsToLower (p2.getD "") →
      itineraryKey c1 p1 = itineraryKey c2 p2 ∧
        foodMapKey c1 p1 d = foodMapKey c2 p2 d) ∧
    (∀ (cc : Cache (List Json)) (t : Nat), jsToLower c1 = jsToLower c2 →
      getCache cc (searchCityFoodKey c1) t =
        getCache cc (searchCityFoodKey c2) t) := by
  refine ⟨rfl, rfl, rfl, rfl, ?_, ?_, ?_, ?_⟩
  · intro h
    simp [searchCityFoodKey, h]
  · intro h1 h2
    simp [menuKey, h1, h2]
  · intro h1 h2
    constructor
    · simp [itineraryKey, h1, h2]
    · simp [foodMapKey, h1, h2]
  · intro cc t h
    simp [searchCityFoodKey, h]

/-- Witness for C8: the spec's own example — city `"Tokyo"` derives
`restaurants:tokyo` and collides with city `"tokyo"`; likewise for the
other tools' keys. -/
theorem cache_key_normalization_witness :
    searchCityFoodKey "Tokyo" = "restaurants:tokyo" ∧
    searchCityFoodKey "Tokyo" = searchCityFoodKey "tokyo" ∧
    menuKey "Tokyo" "Quinta" = menuKey "tokyo" "QUINTA" ∧
    itineraryKey "Tokyo" (some "Vegan") = itineraryKey "tokyo" (some "vegan") ∧
    foodMapKey "Tokyo" none 3 = foodMapKey "tokyo" none 3 :=
  ⟨Eq.trans (cache_key_normalization "Tokyo" "tokyo" "" "" none none 0).1
     (by decide),
   (cache_key_normalization "Tokyo" "tokyo" "" "" none none 0).2.2.2.2.1
     (by decide),
   (cache_key_normalization "Tokyo" "tokyo" "Quinta" "QUINTA" none none
     0).2.2.2.2.2.1 (by decide) (by decide),
   ((cache_key_normalization "Tokyo" "tokyo" "" "" (some "Vegan")
     (some "vegan") 0).2.2.2.2.2.2.1 (by decide) (by decide)).1,
   ((cache_key_normalization "Tokyo" "tokyo" "" "" none none
     3).2.2.2.2.2.2.1 (by decide) (by decide)).2⟩

-- ── C3: defensive array coercion ────────────────────────────────────────────

/-- C3 (amended).  `search-city-food` coerces its expected array field
defensively: a present array is taken as is, and a missing or non-array
`restaurants` value yields the empty list, without an error.
`get-menu-dishes` coerces only a missing or `null` `dishes` field to the
empty list: a present non-array value is not coerced, and the invocation
ends in the handler's catch-all error when image enrichment is configured,
or in an uncaught exception when it is not. -/
theorem array_coercion (parsed : Json) (u : Bool) (xs : List Json) (v : Json) :
    (parsed.get "restaurants" = some (Json.arr xs) →
      coerceRestaurants parsed = xs) ∧
    (∀ fs, parsed = Json.obj fs → parsed.get "restaurants" = none →
      coerceRestaurants parsed = []) ∧
    (parsed.get "restaurants" = some v → v.isArr = false →
      coerceRestaurants parsed = []) ∧
    (parsed.get "dishes" = none →
      menuDishesOutcome u parsed = ShapeOutcome.records []) ∧
    (parsed.get "dishes" = some Json.null →
      menuDishesOutcome u parsed = ShapeOutcome.records []) ∧
    (parsed.get "dishes" = some (Json.arr xs) →
      menuDishesOutcome u parsed = ShapeOutcome.records xs) ∧
    (parsed.get "dishes" = some v → v.isArr = false → v ≠ Json.null →
      menuDishesOutcome u parsed =
        (if u then ShapeOutcome.errorReturned
         else ShapeOutcome.exceptionEscapes)) := by
  refine ⟨?_, ?_, ?_, ?_, ?_, ?_, ?_⟩
  · intro h
    simp [coerceRestaurants, h, coalesce]
  · intro fs hp h
    subst hp
    simp [coerceRestaurants, h, coalesce]
  · intro h hv
    cases v with
    | null =>
      cases parsed with
      | obj fs => simp [coerceRestaurants, h, coalesce]
      | null => simp [Json.get] at h
      | str s => simp [Json.get] at h
      | num n => simp [Json.get] at h
      | bool b => simp [Json.get] at h
      | arr ys => simp [Json.get] at h
    | arr ys => simp [Json.isArr] at hv
    | str s => simp [coerceRestaurants, h, coalesce]
    | num n => simp [coerceRestaurants, h, coalesce]
    | bool b => simp [coerceRestaurants, h, coalesce]
    | obj fs => simp [coerceRestaurants, h, coalesce]
  · intro h
    simp [menuDishesOutcome, h, coalesce]
  · intro h
    simp [menuDishesOutcome, h, coalesce]
  · intro h
    simp [menuDishesOutcome, h, coalesce]
  · intro h hv hnull
    cases v with
    | null => exact absurd rfl hnull
    | arr ys => simp [Json.isArr] at hv
    | str s => simp [menuDishesOutcome, h, coalesce]
    | num n => simp [menuDishesOutcome, h, coalesce]
    | bool b => simp [menuDishesOutcome, h, coalesce]
    | obj fs => simp [menuDishesOutcome, h, coalesce]

/-- Witness for C3's amended statement at concrete inputs: an array field
passes through, a missing field yields the empty list in both pipelines,
and the spec's own probe `\x7b"restaurants": "not an array"\x7d` yields the
empty list in `search-city-food`. -/
theorem array_coercion_witness :
    coerceRestaurants (Json.obj [("restaurants",
      Json.arr [Json.str "r1"])]) = [Json.str "r1"] ∧
    coerceRestaurants (Json.obj [("restaurants", Json.str "not an array")]) =
      [] ∧
    coerceRestaurants (Json.obj [("other", Json.num 1)]) = [] ∧
    menuDishesOutcome true (Json.obj []) = ShapeOutcome.records [] :=
  ⟨(array_coercion (Json.obj [("restaurants", Json.arr [Json.str "r1"])])
      true [Json.str "r1"] Json.null).1 rfl,
   (array_coercion (Json.obj [("restaurants", Json.str "not an array")])
      true [] (Json.str "not an array")).2.2.1 rfl rfl,
   (array_coercion (Json.obj [("other", Json.num 1)]) true []
      Json.null).2.1 _ rfl rfl,
   (array_coercion (Json.obj []) true [] Json.null).2.2.2.1 rfl⟩

/-- C3 counterexample: in `get-menu-dishes`, the structured-extraction
response `\x7b"dishes": "not an array"\x7d` parses as JSON but the expected
array field is not an array, and the pipeline does NOT return an empty
record list: with the image credential configured the handler returns its
catch-all error, and without it the `TypeError` escapes uncaught. -/
theorem menu_shape_mismatch_counterexample :
    menuDishesOutcome true (Json.obj [("dishes", Json.str "not an array")]) =
      ShapeOutcome.errorReturned ∧
    menuDishesOutcome true (Json.obj [("dishes", Json.str "not an array")]) ≠
      ShapeOutcome.records [] ∧
    menuDishesOutcome false (Json.obj [("dishes", Json.str "not an array")]) =
      ShapeOutcome.exceptionEscapes := by
  refine ⟨rfl, ?_, rfl⟩
  intro h
  exact ShapeOutcome.noConfusion h

-- ── C10: itinerary geodata defaulting ───────────────────────────────────────

/-- C10.  In `build-taste-itinerary`, a missing `centerLat`, `centerLng`,
or per-stop `lat`/`lng` in the extraction response is substituted with 0
(`?? 0`), so the returned payload always carries numeric center
coordinates and every returned `ItineraryStop` carries numeric `lat` and
`lng` (the output fields are total, never absent). -/
theorem itinerary_geodata_defaulting (k : Option String)
    (image : String → Except Unit (Option String)) (p : ItineraryParsed)
    (s : RawItineraryStop) :
    (buildItinerary k image p).centerLat = p.centerLat.getD 0 ∧
    (buildItinerary k image p).centerLng = p.centerLng.getD 0 ∧
    (p.centerLat = none → (buildItinerary k image p).centerLat = 0) ∧
    (p.centerLng = none → (buildItinerary k image p).centerLng = 0) ∧
    (buildItinerary k image p).stops =
      (p.stops.getD []).map (buildItineraryStop k image) ∧
    (buildItineraryStop k image s).lat = s.lat.getD 0 ∧
    (buildItineraryStop k image s).lng = s.lng.getD 0 ∧
    (s.lat = none → (buildItineraryStop k image s).lat = 0) ∧
    (s.lng = none → (buildItineraryStop k image s).lng = 0) := by
  refine ⟨rfl, rfl, ?_, ?_, rfl, rfl, rfl, ?_, ?_⟩ <;>
    intro h <;> simp [buildItinerary, buildItineraryStop, h]

/-- Witness for C10: an extraction response omitting the center coordinates
and a stop omitting `lat`/`lng` still yields numeric zeros. -/
theorem itinerary_geodata_defaulting_witness :
    (buildItinerary none (fun _ => Except.ok none)
      ⟨none, none, some [⟨"Dinner", "19:00", "Trattoria", "Centro", "Cacio",
        "pasta", "ctx", "walk", none, none, none⟩]⟩).centerLat = 0 ∧
    (buildItineraryStop none (fun _ => Except.ok none)
      ⟨"Dinner", "19:00", "Trattoria", "Centro", "Cacio", "pasta", "ctx",
        "walk", none, none, none⟩).lat = 0 :=
  ⟨(itinerary_geodata_defaulting none (fun _ => Except.ok none)
      ⟨none, none, some [⟨"Dinner", "19:00", "Trattoria", "Centro", "Cacio",
        "pasta", "ctx", "walk", none, none, none⟩]⟩
      ⟨"Dinner", "19:00", "Trattoria", "Centro", "Cacio", "pasta", "ctx",
        "walk", none, none, none⟩).2.2.1 rfl,
   (itinerary_geodata_defaulting none (fun _ => Except.ok none)
      ⟨none, none, none⟩
      ⟨"Dinner", "19:00", "Trattoria", "Centro", "Cacio", "pasta", "ctx",
        "walk", none, none, none⟩).2.2.2.2.2.2.2.1 rfl⟩

-- ── C4: image-field population ──────────────────────────────────────────────

/-- C4 (amended).  When the image credential is configured, every enriched
record's image field is a string: in `get-menu-dishes` each dish's
`imageUrl` is set to the looked-up URL, `""` on a lookup with no result or
a failed lookup; in the itinerary and map pipelines `dishImageUrl` is a
total string field, `""` whenever the credential is unset, the record has
no `imageQuery`, the lookup yields no result, or the lookup fails.  But in
`get-menu-dishes` enrichment is skipped entirely when the credential is not
configured, leaving each dish's optional `imageUrl` exactly as parsed —
possibly absent (`undefined`), not the empty string. -/
theorem image_field_population (k : Option String)
    (image : String → Except Unit (Option String)) (ds : List Dish)
    (d : Dish) (s : RawItineraryStop) (m : RawMapStop) :
    (truthy k = false → enrichDishes k image ds = ds) ∧
    (truthy k = true →
      ∀ d2 ∈ enrichDishes k image ds, ∃ u, d2.imageUrl = some u) ∧
    (image d.imageQuery = Except.ok none →
      (enrichDish image d).imageUrl = some "") ∧
    (image d.imageQuery = Except.error () →
      (enrichDish image d).imageUrl = some "") ∧
    (truthy k = false → (buildItineraryStop k image s).dishImageUrl = "") ∧
    (truthy k = false → (buildMapStop k image m).dishImageUrl = "") ∧
    (image (s.imageQuery.getD "") = Except.ok none →
      (buildItineraryStop k image s).dishImageUrl = "") ∧
    (image (m.imageQuery.getD "") = Except.error () →
      (buildMapStop k image m).dishImageUrl = "") := by
  refine ⟨?_, ?_, ?_, ?_, ?_, ?_, ?_, ?_⟩
  · intro h
    simp [enrichDishes, h]
  · intro h d2 hmem
    rw [enrichDishes, if_pos h] at hmem
    obtain ⟨d1, _, rfl⟩ := List.mem_map.mp hmem
    exact ⟨imageOracleResult image d1.imageQuery, rfl⟩
  · intro h
    simp [enrichDish, imageOracleResult, h]
  · intro h
    simp [enrichDish, imageOracleResult, h]
  · intro h
    simp [buildItineraryStop, h]
  · intro h
    simp [buildMapStop, h]
  · intro h
    by_cases hg : truthy k && truthy s.imageQuery
    · simp [buildItineraryStop, hg, imageOracleResult, h]
    · simp [buildItineraryStop, hg]
  · intro h
    by_cases hg : truthy k && truthy m.imageQuery
    · simp [buildMapStop, hg, imageOracleResult, h]
    · simp [buildMapStop, hg]

/-- Witness for C4's amended statement at concrete inputs. -/
theorem image_field_population_witness :
    enrichDishes none (fun _ => Except.ok (some "https://img"))
      [⟨"Nata", "custard tart", "snack", "pastel de nata", none⟩] =
      [⟨"Nata", "custard tart", "snack", "pastel de nata", none⟩] ∧
    (enrichDish (fun _ => Except.ok none)
      ⟨"Nata", "custard tart", "snack", "pastel de nata", none⟩).imageUrl =
      some "" ∧
    (buildMapStop none (fun _ => Except.ok (some "https://img"))
      ⟨"Bar", "Centro", "cafe", none, none, "espresso", "small coffee",
        none, none, none, some "espresso cup"⟩).dishImageUrl = "" :=
  ⟨(image_field_population none (fun _ => Except.ok (some "https://img"))
      [⟨"Nata", "custard tart", "snack", "pastel de nata", none⟩]
      ⟨"Nata", "custard tart", "snack", "pastel de nata", none⟩
      ⟨"", "", "", "", "", "", "", "", none, none, none⟩
      ⟨"", "", "", none, none, "", "", none, none, none, none⟩).1 rfl,
   (image_field_population none (fun _ => Except.ok none) []
      ⟨"Nata", "custard tart", "snack", "pastel de nata", none⟩
      ⟨"", "", "", "", "", "", "", "", none, none, none⟩
      ⟨"", "", "", none, none, "", "", none, none, none, none⟩).2.2.1 rfl,
   (image_field_population none (fun _ => Except.ok (some "https://img")) []
      ⟨"", "", "", "", none⟩
      ⟨"", "", "", "", "", "", "", "", none, none, none⟩
      ⟨"Bar", "Centro", "cafe", none, none, "espresso", "small coffee",
        none, none, none, some "espresso cup"⟩).2.2.2.2.2.1 rfl⟩

/-- C4 counterexample: with the image credential not configured,
`get-menu-dishes` skips enrichment and returns a dish whose `imageUrl` is
absent (`undefined`), not the empty string. -/
theorem menu_image_undefined_counterexample :
    (enrichDishes none (fun _ => Except.ok (some "https://img"))
      [⟨"Nata", "custard tart", "snack", "pastel de nata", none⟩]).map
        Dish.imageUrl = [none] ∧
    (enrichDishes none (fun _ => Except.ok (some "https://img"))
      [⟨"Nata", "custard tart", "snack", "pastel de nata", none⟩]).map
        Dish.imageUrl ≠ [some ""] := by
  exact ⟨rfl, by decide⟩

-- ── C5: enrichment isolation ────────────────────────────────────────────────

/-- C5.  For a list of N records carrying image queries, the per-record
lookups are independent: the pipeline's enriched list has exactly N
records, the i-th output record is a function of the i-th input record
alone, a failed lookup yields `""` for that record's image field only, and
no lookup failure aborts the enrichment (it is total: every oracle outcome,
including failure, still produces the N output records). -/
theorem enrichment_isolation (k : Option String)
    (image : String → Except Unit (Option String)) (ds : List Dish)
    (rds : List RawMapStop) (i : Nat) :
    (enrichDishes k image ds).length = ds.length ∧
    (truthy k = true →
      (enrichDishes k image ds)[i]? = (ds[i]?).map (enrichDish image)) ∧
    (∀ d ∈ ds, image d.imageQuery = Except.error () →
      (enrichDish image d).imageUrl = some "") ∧
    (∀ d ∈ ds, ∀ u, image d.imageQuery = Except.ok (some u) →
      (enrichDish image d).imageUrl = some u) ∧
    (rds.map (buildMapStop k image)).length = rds.length ∧
    (rds.map (buildMapStop k image))[i]? =
      (rds[i]?).map (buildMapStop k image) ∧
    (∀ m ∈ rds, image (m.imageQuery.getD "") = Except.error () →
      (buildMapStop k image m).dishImageUrl = "") := by
  refine ⟨?_, ?_, ?_, ?_, ?_, ?_, ?_⟩
  · by_cases h : truthy k <;> simp [enrichDishes, h]
  · intro h
    simp [enrichDishes, h, List.getElem?_map]
  · intro d _ h
    simp [enrichDish, imageOracleResult, h]
  · intro d _ u h
    simp [enrichDish, imageOracleResult, h]
  · simp
  · simp [List.getElem?_map]
  · intro m _ h
    by_cases hg : truthy k && truthy m.imageQuery
    · simp [buildMapStop, hg, imageOracleResult, h]
    · simp [buildMapStop, hg]

/-- Witness for C5: three records where exactly lookup 2 fails — three
records come back, record 2's image field is `""`, records 1 and 3 carry
their looked-up URLs. -/
theorem enrichment_isolation_witness :
    (enrichDishes (some "u") isolationOracle
      [⟨"d1", "", "", "q1", none⟩, ⟨"d2", "", "", "q2", none⟩,
       ⟨"d3", "", "", "q3", none⟩]).length = 3 ∧
    (enrichDish isolationOracle ⟨"d2", "", "", "q2", none⟩).imageUrl =
      some "" ∧
    (enrichDishes (some "u") isolationOracle
      [⟨"d1", "", "", "q1", none⟩, ⟨"d2", "", "", "q2", none⟩,
       ⟨"d3", "", "", "q3", none⟩]).map Dish.imageUrl =
      [some "https://img/q1", some "", some "https://img/q3"] :=
  ⟨(enrichment_isolation (some "u") isolationOracle
      [⟨"d1", "", "", "q1", none⟩, ⟨"d2", "", "", "q2", none⟩,
       ⟨"d3", "", "", "q3", none⟩] [] 0).1,
   (enrichment_isolation (some "u") isolationOracle
      [⟨"d1", "", "", "q1", none⟩, ⟨"d2", "", "", "q2", none⟩,
       ⟨"d3", "", "", "q3", none⟩] [] 0).2.2.1
      ⟨"d2", "", "", "q2", none⟩ (by decide) rfl,
   by decide⟩

-- ── C6: grouped/flat consistency of the food map ────────────────────────────

theorem buildFoodMapDays_flat (k : Option String)
    (image : String → Except Unit (Option String)) (rds : List RawDay) :
    (buildFoodMapDays k image rds).2 =
      ((buildFoodMapDays k image rds).1.map DayItinerary.stops).flatten := by
  induction rds with
  | nil => rfl
  | cons rd rest ih => simp [buildFoodMapDays, ih]

theorem getCache_some_lookup {α : Type} (c : Cache α) (k2 : String) (t : Nat)
    (v : α) (h : getCache c k2 t = some v) :
    ∃ e, cacheLookup c k2 = some e ∧ e.data = v := by
  unfold getCache at h
  cases he : cacheLookup c k2 with
  | none => rw [he] at h; cases h
  | some e =>
    rw [he] at h
    by_cases hlt : t < e.expires
    · refine ⟨e, rfl, ?_⟩
      have h2 : some e.data = some v := by simpa [hlt] using h
      exact Option.some.inj h2
    · simp [hlt] at h

theorem cacheConsistent_setCache (c : Cache FoodMapPayload) (k2 : String)
    (p : FoodMapPayload) (t ttl : Nat) (hc : cacheConsistent c)
    (hp : FoodMapPayload.consistent p) :
    cacheConsistent (setCache c k2 p t ttl) := by
  intro s e h
  unfold setCache cacheLookup at h
  by_cases hs : k2 = s
  · rw [if_pos hs] at h
    injection h with h
    subst h
    exact hp
  · rw [if_neg hs] at h
    exact hc s e h

theorem consistent_length (p : FoodMapPayload)
    (hp : FoodMapPayload.consistent p) :
    p.stops.length = (p.days.map fun d2 => d2.stops.length).sum := by
  unfold FoodMapPayload.consistent at hp
  rw [hp, List.length_flatten, List.map_map]
  rfl

/-- C6.  Every `explore-city-food-map` result carries both the per-day
grouped representation and the flat overall stop list, and the flat list
equals the concatenation of the days' stop lists in day order, so its
length is the sum of each day's stop-list length; the invariant holds on a
cache miss by construction of the day loop, is stored in the cache, and is
therefore reproduced on every cache hit. -/
theorem foodmap_flat_consistency (env : Env) (w : FoodMapWorld)
    (c : Cache FoodMapPayload) (now : Nat) (city : String)
    (preferences : Option String) (numDays : Option Nat)
    (hc : cacheConsistent c) :
    (∀ props, (exploreCityFoodMap env w c now city preferences numDays).1 =
        ToolResult.ok props →
      props.stops = (props.days.map DayItinerary.stops).flatten ∧
      props.stops.length = (props.days.map fun d2 => d2.stops.length).sum) ∧
    cacheConsistent
      (exploreCityFoodMap env w c now city preferences numDays).2.1 := by
  by_cases ht : truthy env.tavilyKey
  swap
  · constructor
    · intro props h
      rw [exploreCityFoodMap] at h
      simp [ht] at h
    · show cacheConsistent (exploreCityFoodMap env w c now city preferences
        numDays).2.1
      rw [exploreCityFoodMap]
      simp [ht]
      exact hc
  by_cases ho : truthy env.openaiKey
  swap
  · constructor
    · intro props h
      rw [exploreCityFoodMap] at h
      simp [ht, ho] at h
    · rw [exploreCityFoodMap]
      simp [ht, ho]
      exact hc
  cases hg : getCache c (foodMapKey city preferences (numDays.getD 1)) now with
  | some p =>
    obtain ⟨e, he, hed⟩ := getCache_some_lookup _ _ _ _ hg
    have hpc : FoodMapPayload.consistent p := by
      rw [← hed]; exact hc _ e he
    constructor
    · intro props h
      rw [exploreCityFoodMap] at h
      simp [ht, ho, hg] at h
      subst h
      exact ⟨hpc, consistent_length p hpc⟩
    · rw [exploreCityFoodMap]
      simp [ht, ho, hg]
      exact hc
  | none =>
    cases hs : w.search with
    | error e0 =>
      constructor
      · intro props h
        rw [exploreCityFoodMap] at h
        simp [ht, ho, hg, hs] at h
      · rw [exploreCityFoodMap]
        simp [ht, ho, hg, hs]
        exact hc
    | ok xs =>
      cases hcomp : w.completion with
      | error e0 =>
        constructor
        · intro props h
          rw [exploreCityFoodMap] at h
          simp [ht, ho, hg, hs, hcomp] at h
        · rw [exploreCityFoodMap]
          simp [ht, ho, hg, hs, hcomp]
          exact hc
      | ok parsed =>
        have hflat := buildFoodMapDays_flat env.unsplashKey w.image
          (parsed.days.getD [])
        constructor
        · intro props h
          rw [exploreCityFoodMap] at h
          simp [ht, ho, hg, hs, hcomp] at h
          subst h
          exact ⟨hflat, consistent_length
            ⟨(buildFoodMapDays env.unsplashKey w.image
                (parsed.days.getD [])).2,
             (buildFoodMapDays env.unsplashKey w.image
                (parsed.days.getD [])).1,
             parsed.centerLat.getD 0, parsed.centerLng.getD 0⟩ hflat⟩
        · rw [exploreCityFoodMap]
          simp [ht, ho, hg, hs, hcomp]
          exact cacheConsistent_setCache c _ _ now defaultTtlMs hc hflat

/-- Witness for C6: a concrete 3-day map request on an empty cache returns
grouped days and a flat list, the flat list being their concatenation, its
length the sum of the days' lengths. -/
theorem foodmap_flat_consistency_witness :
    fmWitnessProps.stops =
      (fmWitnessProps.days.map DayItinerary.stops).flatten ∧
    fmWitnessProps.stops.length =
      (fmWitnessProps.days.map fun d2 => d2.stops.length).sum :=
  (foodmap_flat_consistency envAll fmWorld3 [] 0 "Rome" none (some 3)
    (fun _ _ h => Option.noConfusion h)).1 fmWitnessProps rfl

-- ── C2: credential guards ───────────────────────────────────────────────────

/-- C2 (amended).  Credential checks run synchronously at invocation start,
before any network call: `search-city-food` and `explore-city-food-map`
require `TAVILY_API_KEY` and `OPENAI_API_KEY` (Tavily checked first),
`build-taste-itinerary` requires both (OpenAI checked first), and
`get-menu-dishes` requires only `OPENAI_API_KEY`.  Whenever a required
credential is unset (or empty), the invocation returns the configuration
error naming that credential, leaves the cache untouched, and makes zero
external network calls. -/
theorem missing_credential_short_circuits (env : Env) (w1 : SearchWorld)
    (w2 : MenuWorld) (w3 : ItineraryWorld) (w4 : FoodMapWorld)
    (c1 : Cache (List Json)) (c2 : Cache (List Dish))
    (c3 : Cache ItineraryPayload) (c4 : Cache FoodMapPayload) (now : Nat)
    (city restaurantName : String) (url preferences : Option String)
    (numDays : Option Nat) :
    (truthy env.tavilyKey = false →
      searchCityFood env w1 c1 now city =
        (ToolResult.err "TAVILY_API_KEY not configured.", c1, 0) ∧
      exploreCityFoodMap env w4 c4 now city preferences numDays =
        (ToolResult.err "TAVILY_API_KEY not configured.", c4, 0)) ∧
    (truthy env.openaiKey = false →
      getMenuDishes env w2 c2 now restaurantName city url =
        (ToolResult.err "OPENAI_API_KEY not configured.", c2, 0) ∧
      buildTasteItinerary env w3 c3 now city preferences =
        (ToolResult.err "OPENAI_API_KEY not configured.", c3, 0)) ∧
    (truthy env.tavilyKey = true → truthy env.openaiKey = false →
      searchCityFood env w1 c1 now city =
        (ToolResult.err "OPENAI_API_KEY not configured.", c1, 0) ∧
      exploreCityFoodMap env w4 c4 now city preferences numDays =
        (ToolResult.err "OPENAI_API_KEY not configured.", c4, 0)) ∧
    (truthy env.openaiKey = true → truthy env.tavilyKey = false →
      buildTasteItinerary env w3 c3 now city preferences =
        (ToolResult.err "TAVILY_API_KEY not configured.", c3, 0)) := by
  refine ⟨?_, ?_, ?_, ?_⟩
  · intro h
    constructor
    · simp [searchCityFood, h]
    · simp [exploreCityFoodMap, h]
  · intro h
    constructor
    · simp [getMenuDishes, h]
    · simp [buildTasteItinerary, h]
  · intro ht ho
    constructor
    · simp [searchCityFood, ht, ho]
    · simp [exploreCityFoodMap, ht, ho]
  · intro ho ht
    simp [buildTasteItinerary, ht, ho]

/-- Witness for C2's amended statement: each tool, invoked with one of its
required credentials unset, returns that credential's configuration error
with an untouched cache and zero calls. -/
theorem missing_credential_witness :
    searchCityFood ⟨none, some "sk-key", none⟩ searchWorld0 [] 0 "Lisbon" =
      (ToolResult.err "TAVILY_API_KEY not configured.", [], 0) ∧
    exploreCityFoodMap ⟨some "t", none, none⟩ fmWorld3 [] 0 "Rome" none
        (some 2) =
      (ToolResult.err "OPENAI_API_KEY not configured.", [], 0) ∧
    getMenuDishes ⟨some "t", none, none⟩ menuWorld0 [] 0 "Manteigaria"
        "Lisbon" none =
      (ToolResult.err "OPENAI_API_KEY not configured.", [], 0) ∧
    buildTasteItinerary ⟨none, some "sk-key", none⟩ itinWorld0 [] 0 "Lisbon"
        none =
      (ToolResult.err "TAVILY_API_KEY not configured.", [], 0) :=
  ⟨((missing_credential_short_circuits ⟨none, some "sk-key", none⟩
      searchWorld0 menuWorld0 itinWorld0 fmWorld3 [] [] [] [] 0 "Lisbon"
      "Manteigaria" none none none).1 rfl).1,
   ((missing_credential_short_circuits ⟨some "t", none, none⟩ searchWorld0
      menuWorld0 itinWorld0 fmWorld3 [] [] [] [] 0 "Rome" "Manteigaria" none
      none (some 2)).2.2.1 rfl rfl).2,
   ((missing_credential_short_circuits ⟨some "t", none, none⟩ searchWorld0
      menuWorld0 itinWorld0 fmWorld3 [] [] [] [] 0 "Lisbon" "Manteigaria"
      none none none).2.1 rfl).1,
   (missing_credential_short_circuits ⟨none, some "sk-key", none⟩
      searchWorld0 menuWorld0 itinWorld0 fmWorld3 [] [] [] [] 0 "Lisbon"
      "Manteigaria" none none none).2.2.2 rfl rfl⟩

/-- C2 counterexample: `get-menu-dishes` does NOT require the
search-service credential.  With `TAVILY_API_KEY` unset and
`OPENAI_API_KEY` set, the invocation is not a configuration error: it
proceeds to the completion call (one external network call, not zero) and
returns dishes. -/
theorem menu_missing_tavily_counterexample :
    (getMenuDishes ⟨none, some "sk-key", none⟩ menuWorld0 [] 0 "Manteigaria"
      "Lisbon" none).1 = ToolResult.ok ⟨"Manteigaria", "Lisbon", [dishNata]⟩ ∧
    (getMenuDishes ⟨none, some "sk-key", none⟩ menuWorld0 [] 0 "Manteigaria"
      "Lisbon" none).2.2 = 1 := by
  exact ⟨rfl, rfl⟩

-- ── C7: content extraction and page-fetch fallback ──────────────────────────

theorem all_take (p : Char → Bool) : ∀ (n : Nat) (l : List Char),
    l.all p = true → (l.take n).all p = true := by
  intro n l
  induction l generalizing n with
  | nil => intro _; simp
  | cons c rest ih =>
    intro h
    cases n with
    | zero => simp
    | succ m =>
      rw [List.all_cons, Bool.and_eq_true] at h
      rw [List.take_succ_cons, List.all_cons, Bool.and_eq_true]
      exact ⟨h.1, ih m h.2⟩

theorem noDoubleWs_take : ∀ (l : List Char) (n : Nat),
    noDoubleWs l = true → noDoubleWs (l.take n) = true := by
  intro l
  induction l with
  | nil => intro n _; simp [noDoubleWs]
  | cons c1 tl ih =>
    intro n h
    cases n with
    | zero => rfl
    | succ m =>
      rw [List.take_succ_cons]
      cases tl with
      | nil => simp [noDoubleWs]
      | cons c2 tl2 =>
        have hsplit : (!(c1.isWhitespace && c2.isWhitespace)) = true ∧
            noDoubleWs (c2 :: tl2) = true := by
          simpa [noDoubleWs, Bool.and_eq_true] using h
        cases m with
        | zero => rfl
        | succ m2 =>
          have h2 := ih (m2 + 1) hsplit.2
          rw [List.take_succ_cons] at h2
          rw [List.take_succ_cons]
          simp [noDoubleWs, hsplit.1, h2]

theorem collapseWsAux_true_head :
    ∀ (l : List Char) (c0 : Char) (cs0 : List Char),
      collapseWsAux true l = c0 :: cs0 → c0.isWhitespace = false := by
  intro l
  induction l with
  | nil => intro c0 cs0 h; cases h
  | cons c rest ih =>
    intro c0 cs0 h
    by_cases hw : c.isWhitespace
    · rw [collapseWsAux] at h
      simp [hw] at h
      exact ih c0 cs0 h
    · rw [collapseWsAux] at h
      simp [hw] at h
      rw [← h.1]
      simpa using hw

theorem collapseWsAux_noDoubleWs :
    ∀ (l : List Char) (b : Bool),
      noDoubleWs (collapseWsAux b l) = true := by
  intro l
  induction l with
  | nil => intro b; rfl
  | cons c rest ih =>
    intro b
    by_cases hw : c.isWhitespace
    · cases b with
      | true =>
        rw [collapseWsAux]
        simpa [hw] using ih true
      | false =>
        rw [collapseWsAux]
        simp only [hw, if_true, Bool.false_eq_true, if_false]
        cases hout : collapseWsAux true rest with
        | nil => rfl
        | cons c0 cs0 =>
          have hc0 := collapseWsAux_true_head rest c0 cs0 hout
          have htl := ih true
          rw [hout] at htl
          simp [noDoubleWs, hc0, htl]
    · rw [collapseWsAux]
      simp only [hw, Bool.false_eq_true, if_false]
      cases hout : collapseWsAux false rest with
      | nil => rfl
      | cons c0 cs0 =>
        have htl := ih false
        rw [hout] at htl
        simp [noDoubleWs, hw, htl]

theorem collapseWsAux_onlySpaces :
    ∀ (l : List Char) (b : Bool),
      ((collapseWsAux b l).all fun ch => !ch.isWhitespace || ch == ' ') =
        true := by
  intro l
  induction l with
  | nil => intro b; rfl
  | cons c rest ih =>
    intro b
    by_cases hw : c.isWhitespace
    · cases b with
      | true =>
        rw [collapseWsAux]
        simpa [hw] using ih true
      | false =>
        rw [collapseWsAux]
        simp only [hw, if_true, Bool.false_eq_true, if_false, List.all_cons]
        simpa using ih true
    · rw [collapseWsAux]
      simp [hw, List.all_cons, ih false]

/-- C7 (amended).  The extractor removes every
script/style/nav/footer/header element with its subtree, collapses all
whitespace runs to single spaces (the result contains no whitespace other
than single spaces), and truncates to the first 4,000 characters; when the
page fetch rejects (timeout, network failure) the context is the empty
string and the dish-lookup pipeline falls through to the web-search-derived
context, still returning dishes rather than aborting.  (An HTTP error
status is not detected: the fetch only rejects on network failure, and the
code never reads `res.status`, so a non-200 response's body is extracted
like a success — see the counterexample.) -/
theorem content_extraction_fallback (env : Env) (doc : Html) (tag : String)
    (cs : List Html) (t0 : Nat) :
    (extractPage doc).length ≤ 4000 ∧
    ((extractPage doc).data.all fun ch => !ch.isWhitespace || ch == ' ') =
      true ∧
    noDoubleWs (extractPage doc).data = true ∧
    (tag ∈ bannedTags → stripNode (Html.element tag cs) = []) ∧
    pageMenuContext (Except.error ()) = "" ∧
    (truthy env.openaiKey = true → truthy env.tavilyKey = true →
      ∀ (w : MenuWorld) (c : Cache (List Dish))
        (restaurantName city u : String) (rs : List String)
        (parsed : MenuParsed),
        truthy (some u) = true → jsStartsWith u "http" = true →
        w.pageFetch = Except.error () → w.menuSearch = Except.ok rs →
        w.completion = Except.ok parsed →
        getCache c (menuKey city restaurantName) t0 = none →
        (getMenuDishes env w c t0 restaurantName city (some u)).1 =
          ToolResult.ok ⟨restaurantName, city,
            enrichDishes env.unsplashKey w.image (parsed.dishes.getD [])⟩ ∧
        (getMenuDishes env w c t0 restaurantName city (some u)).2.2 =
          3 + (if truthy env.unsplashKey then (parsed.dishes.getD []).length
            else 0)) := by
  refine ⟨?_, ?_, ?_, ?_, rfl, ?_⟩
  · show ((collapseWs (textOfList (stripList [doc]))).data.take 4000).length ≤
      4000
    rw [List.length_take]
    exact min_le_left _ _
  · exact all_take _ 4000 _ (collapseWsAux_onlySpaces _ false)
  · exact noDoubleWs_take _ 4000 (collapseWsAux_noDoubleWs _ false)
  · intro hmem
    rw [stripNode]
    simp [hmem]
  · intro ho ht w c restaurantName city u rs parsed hu hpre hfetch hsearch
      hcomp hmiss
    constructor
    · simp [getMenuDishes, ho, ht, hu, hpre, hfetch, hsearch, hcomp, hmiss,
        pageMenuContext]
    · simp [getMenuDishes, ho, ht, hu, hpre, hfetch, hsearch, hcomp, hmiss,
        pageMenuContext]

/-- Witness for C7: a concrete invocation whose page fetch rejects
(timeout) still returns dishes, drawn via the web-search context, making
the fetch, search, completion and one image call. -/
theorem content_extraction_fallback_witness :
    (getMenuDishes envAll menuWorld0 [] 0 "Manteigaria" "Lisbon"
      (some "https://manteigaria.example")).1 =
      ToolResult.ok ⟨"Manteigaria", "Lisbon",
        enrichDishes (some "unsplash-key") isolationOracle [dishNata]⟩ ∧
    (getMenuDishes envAll menuWorld0 [] 0 "Manteigaria" "Lisbon"
      (some "https://manteigaria.example")).2.2 = 4 := by
  have h := (content_extraction_fallback envAll (Html.textNode "") "script"
    [] 0).2.2.2.2.2 rfl rfl menuWorld0 [] "Manteigaria" "Lisbon"
    "https://manteigaria.example" ["search content"] ⟨some [dishNata]⟩
    rfl rfl rfl rfl rfl rfl
  exact ⟨h.1, by rw [h.2]; rfl⟩

/-- C7 counterexample: a non-200 response is NOT a fetch failure for this
code — `fetch` resolves on HTTP error statuses and the handler never reads
`res.status` — so the claim's "non-200 yields the empty string" fails: a
404 page's body is extracted like any success. -/
theorem non200_content_counterexample :
    pageMenuContext (Except.ok (404,
      Html.element "html" [Html.textNode "Not Found"])) =
      "\n\nRestaurant website content:\nNot Found" ∧
    pageMenuContext (Except.ok (404,
      Html.element "html" [Html.textNode "Not Found"])) ≠ "" := by
  refine ⟨rfl, ?_⟩
  intro h
  exact absurd h (by decide)

-- ── C9: idempotent cache hit ────────────────────────────────────────────────

/-- C9.  For every pipeline: when a first invocation misses the cache and
all its external calls succeed, it issues its external calls (2 for
`search-city-food`; 2 plus one image call per dish for `get-menu-dishes`
without a page URL; 3 plus the guarded per-stop image calls for
`build-taste-itinerary`; 2 plus the guarded per-stop image calls for
`explore-city-food-map`), and a second invocation with the same normalized
inputs strictly within the TTL window short-circuits on the cache hit,
makes zero external calls, and returns exactly the first invocation's
output. -/
theorem idempotent_cache_hit (env : Env) (t0 t1 : Nat)
    (httl : t1 < t0 + defaultTtlMs)
    (ht : truthy env.tavilyKey = true) (ho : truthy env.openaiKey = true) :
    (∀ (w : SearchWorld) (c : Cache (List Json)) (city : String)
        (xs : List String) (parsed : Json),
      w.search = Except.ok xs → w.completion = Except.ok parsed →
      getCache c (searchCityFoodKey city) t0 = none →
      (searchCityFood env w c t0 city).2.2 = 2 ∧
      (searchCityFood env w (searchCityFood env w c t0 city).2.1 t1
        city).2.2 = 0 ∧
      (searchCityFood env w (searchCityFood env w c t0 city).2.1 t1
        city).1 = (searchCityFood env w c t0 city).1) ∧
    (∀ (w : MenuWorld) (c : Cache (List Dish))
        (restaurantName city : String) (rs : List String)
        (parsed : MenuParsed),
      w.menuSearch = Except.ok rs → w.completion = Except.ok parsed →
      getCache c (menuKey city restaurantName) t0 = none →
      (getMenuDishes env w c t0 restaurantName city none).2.2 =
        2 + (if truthy env.unsplashKey then (parsed.dishes.getD []).length
          else 0) ∧
      (getMenuDishes env w (getMenuDishes env w c t0 restaurantName city
        none).2.1 t1 restaurantName city none).2.2 = 0 ∧
      (getMenuDishes env w (getMenuDishes env w c t0 restaurantName city
        none).2.1 t1 restaurantName city none).1 =
        (getMenuDishes env w c t0 restaurantName city none).1) ∧
    (∀ (w : ItineraryWorld) (c : Cache ItineraryPayload) (city : String)
        (preferences : Option String) (fs cu : List String)
        (parsed : ItineraryParsed),
      w.foodSearch = Except.ok fs → w.cultureSearch = Except.ok cu →
      w.completion = Except.ok parsed →
      getCache c (itineraryKey city preferences) t0 = none →
      (buildTasteItinerary env w c t0 city preferences).2.2 =
        3 + countStopImageCalls env.unsplashKey
          ((parsed.stops.getD []).map RawItineraryStop.imageQuery) ∧
      (buildTasteItinerary env w (buildTasteItinerary env w c t0 city
        preferences).2.1 t1 city preferences).2.2 = 0 ∧
      (buildTasteItinerary env w (buildTasteItinerary env w c t0 city
        preferences).2.1 t1 city preferences).1 =
        (buildTasteItinerary env w c t0 city preferences).1) ∧
    (∀ (w : FoodMapWorld) (c : Cache FoodMapPayload) (city : String)
        (preferences : Option String) (numDays : Option Nat)
        (xs : List String) (parsed : FoodMapParsed),
      w.search = Except.ok xs → w.completion = Except.ok parsed →
      getCache c (foodMapKey city preferences (numDays.getD 1)) t0 = none →
      (exploreCityFoodMap env w c t0 city preferences numDays).2.2 =
        2 + countFoodMapImageCalls env.unsplashKey (parsed.days.getD []) ∧
      (exploreCityFoodMap env w (exploreCityFoodMap env w c t0 city
        preferences numDays).2.1 t1 city preferences numDays).2.2 = 0 ∧
      (exploreCityFoodMap env w (exploreCityFoodMap env w c t0 city
        preferences numDays).2.1 t1 city preferences numDays).1 =
        (exploreCityFoodMap env w c t0 city preferences numDays).1) := by
  refine ⟨?_, ?_, ?_, ?_⟩
  · intro w c city xs parsed hs hcomp hmiss
    have h1 : searchCityFood env w c t0 city =
        (ToolResult.ok ⟨city, coerceRestaurants parsed⟩,
          setCache c (searchCityFoodKey city) (coerceRestaurants parsed) t0
            defaultTtlMs, 2) := by
      simp [searchCityFood, ht, ho, hmiss, hs, hcomp]
    have h2 : searchCityFood env w
        (setCache c (searchCityFoodKey city) (coerceRestaurants parsed) t0
          defaultTtlMs) t1 city =
        (ToolResult.ok ⟨city, coerceRestaurants parsed⟩,
          setCache c (searchCityFoodKey city) (coerceRestaurants parsed) t0
            defaultTtlMs, 0) := by
      simp [searchCityFood, ht, ho,
        getCache_setCache_fresh c (searchCityFoodKey city)
          (coerceRestaurants parsed) t0 t1 defaultTtlMs httl]
    rw [h1, h2]
    exact ⟨rfl, rfl, rfl⟩
  · intro w c restaurantName city rs parsed hsearch hcomp hmiss
    have h1 : getMenuDishes env w c t0 restaurantName city none =
        (ToolResult.ok ⟨restaurantName, city,
            enrichDishes env.unsplashKey w.image (parsed.dishes.getD [])⟩,
          setCache c (menuKey city restaurantName)
            (enrichDishes env.unsplashKey w.image (parsed.dishes.getD []))
            t0 defaultTtlMs,
          2 + (if truthy env.unsplashKey then (parsed.dishes.getD []).length
            else 0)) := by
      simp [getMenuDishes, ho, ht, hmiss, hsearch, hcomp, truthy_none]
    have h2 : getMenuDishes env w
        (setCache c (menuKey city restaurantName)
          (enrichDishes env.unsplashKey w.image (parsed.dishes.getD []))
          t0 defaultTtlMs) t1 restaurantName city none =
        (ToolResult.ok ⟨restaurantName, city,
            enrichDishes env.unsplashKey w.image (parsed.dishes.getD [])⟩,
          setCache c (menuKey city restaurantName)
            (enrichDishes env.unsplashKey w.image (parsed.dishes.getD []))
            t0 defaultTtlMs, 0) := by
      simp [getMenuDishes, ho, truthy_none,
        getCache_setCache_fresh c (menuKey city restaurantName)
          (enrichDishes env.unsplashKey w.image (parsed.dishes.getD []))
          t0 t1 defaultTtlMs httl]
    rw [h1, h2]
    exact ⟨rfl, rfl, rfl⟩
  · intro w c city preferences fs cu parsed hfs hcu hcomp hmiss
    have h1 : buildTasteItinerary env w c t0 city preferences =
        (ToolResult.ok ⟨city, preferences.getD "",
            (buildItinerary env.unsplashKey w.image parsed).stops,
            (buildItinerary env.unsplashKey w.image parsed).centerLat,
            (buildItinerary env.unsplashKey w.image parsed).centerLng⟩,
          setCache c (itineraryKey city preferences)
            (buildItinerary env.unsplashKey w.image parsed) t0 defaultTtlMs,
          3 + countStopImageCalls env.unsplashKey
            ((parsed.stops.getD []).map RawItineraryStop.imageQuery)) := by
      simp [buildTasteItinerary, ho, ht, hmiss, hfs, hcu, hcomp]
    have h2 : buildTasteItinerary env w
        (setCache c (itineraryKey city preferences)
          (buildItinerary env.unsplashKey w.image parsed) t0 defaultTtlMs)
        t1 city preferences =
        (ToolResult.ok ⟨city, preferences.getD "",
            (buildItinerary env.unsplashKey w.image parsed).stops,
            (buildItinerary env.unsplashKey w.image parsed).centerLat,
            (buildItinerary env.unsplashKey w.image parsed).centerLng⟩,
          setCache c (itineraryKey city preferences)
            (buildItinerary env.unsplashKey w.image parsed) t0 defaultTtlMs,
          0) := by
      simp [buildTasteItinerary, ho, ht,
        getCache_setCache_fresh c (itineraryKey city preferences)
          (buildItinerary env.unsplashKey w.image parsed) t0 t1 defaultTtlMs
          httl]
    rw [h1, h2]
    exact ⟨rfl, rfl, rfl⟩
  · intro w c city preferences numDays xs parsed hs hcomp hmiss
    have h1 : exploreCityFoodMap env w c t0 city preferences numDays =
        (ToolResult.ok ⟨city, parsed.centerLat.getD 0, parsed.centerLng.getD 0,
            (buildFoodMapDays env.unsplashKey w.image (parsed.days.getD [])).2,
            (buildFoodMapDays env.unsplashKey w.image
              (parsed.days.getD [])).1⟩,
          setCache c (foodMapKey city preferences (numDays.getD 1))
            ⟨(buildFoodMapDays env.unsplashKey w.image
                (parsed.days.getD [])).2,
              (buildFoodMapDays env.unsplashKey w.image
                (parsed.days.getD [])).1,
              parsed.centerLat.getD 0, parsed.centerLng.getD 0⟩ t0
            defaultTtlMs,
          2 + countFoodMapImageCalls env.unsplashKey (parsed.days.getD [])) :=
      by simp [exploreCityFoodMap, ht, ho, hmiss, hs, hcomp]
    have h2 : exploreCityFoodMap env w
        (setCache c (foodMapKey city preferences (numDays.getD 1))
          ⟨(buildFoodMapDays env.unsplashKey w.image (parsed.days.getD [])).2,
            (buildFoodMapDays env.unsplashKey w.image
              (parsed.days.getD [])).1,
            parsed.centerLat.getD 0, parsed.centerLng.getD 0⟩ t0
          defaultTtlMs) t1 city preferences numDays =
        (ToolResult.ok ⟨city, parsed.centerLat.getD 0, parsed.centerLng.getD 0,
            (buildFoodMapDays env.unsplashKey w.image (parsed.days.getD [])).2,
            (buildFoodMapDays env.unsplashKey w.image
              (parsed.days.getD [])).1⟩,
          setCache c (foodMapKey city preferences (numDays.getD 1))
            ⟨(buildFoodMapDays env.unsplashKey w.image
                (parsed.days.getD [])).2,
              (buildFoodMapDays env.unsplashKey w.image
                (parsed.days.getD [])).1,
              parsed.centerLat.getD 0, parsed.centerLng.getD 0⟩ t0
            defaultTtlMs, 0) := by
      simp [exploreCityFoodMap, ht, ho,
        getCache_setCache_fresh c
          (foodMapKey city preferences (numDays.getD 1))
          ⟨(buildFoodMapDays env.unsplashKey w.image (parsed.days.getD [])).2,
            (buildFoodMapDays env.unsplashKey w.image
              (parsed.days.getD [])).1,
            parsed.centerLat.getD 0, parsed.centerLng.getD 0⟩ t0 t1
          defaultTtlMs httl]
    rw [h1, h2]
    exact ⟨rfl, rfl, rfl⟩

/-- Witness for C9: concrete first/second invocations for every pipeline,
one millisecond apart on an empty cache — the first issues the external
calls, the second issues none and returns the same output. -/
theorem idempotent_cache_hit_witness :
    (searchCityFood envAll searchWorld0 [] 0 "Lisbon").2.2 = 2 ∧
    (searchCityFood envAll searchWorld0
      (searchCityFood envAll searchWorld0 [] 0 "Lisbon").2.1 1
      "Lisbon").2.2 = 0 ∧
    (searchCityFood envAll searchWorld0
      (searchCityFood envAll searchWorld0 [] 0 "Lisbon").2.1 1 "Lisbon").1 =
      (searchCityFood envAll searchWorld0 [] 0 "Lisbon").1 ∧
    (getMenuDishes envAll menuWorld0 [] 0 "Manteigaria" "Lisbon"
      none).2.2 = 3 ∧
    (getMenuDishes envAll menuWorld0
      (getMenuDishes envAll menuWorld0 [] 0 "Manteigaria" "Lisbon" none).2.1
      1 "Manteigaria" "Lisbon" none).2.2 = 0 ∧
    (getMenuDishes envAll menuWorld0
      (getMenuDishes envAll menuWorld0 [] 0 "Manteigaria" "Lisbon" none).2.1
      1 "Manteigaria" "Lisbon" none).1 =
      (getMenuDishes envAll menuWorld0 [] 0 "Manteigaria" "Lisbon" none).1 ∧
    (buildTasteItinerary envAll itinWorld0 [] 0 "Lisbon"
      (some "Vegan")).2.2 = 4 ∧
    (buildTasteItinerary envAll itinWorld0
      (buildTasteItinerary envAll itinWorld0 [] 0 "Lisbon"
        (some "Vegan")).2.1 1 "Lisbon" (some "Vegan")).2.2 = 0 ∧
    (buildTasteItinerary envAll itinWorld0
      (buildTasteItinerary envAll itinWorld0 [] 0 "Lisbon"
        (some "Vegan")).2.1 1 "Lisbon" (some "Vegan")).1 =
      (buildTasteItinerary envAll itinWorld0 [] 0 "Lisbon"
        (some "Vegan")).1 ∧
    (exploreCityFoodMap envAll fmWorld3 [] 0 "Rome" none (some 3)).2.2 = 7 ∧
    (exploreCityFoodMap envAll fmWorld3
      (exploreCityFoodMap envAll fmWorld3 [] 0 "Rome" none (some 3)).2.1 1
      "Rome" none (some 3)).2.2 = 0 ∧
    (exploreCityFoodMap envAll fmWorld3
      (exploreCityFoodMap envAll fmWorld3 [] 0 "Rome" none (some 3)).2.1 1
      "Rome" none (some 3)).1 =
      (exploreCityFoodMap envAll fmWorld3 [] 0 "Rome" none (some 3)).1 := by
  have H := idempotent_cache_hit envAll 0 1 (by decide) rfl rfl
  have H1 := H.1 searchWorld0 [] "Lisbon" ["snippet"]
    (Json.obj [("restaurants", Json.arr [Json.str "r1"])]) rfl rfl rfl
  have H2 := H.2.1 menuWorld0 [] "Manteigaria" "Lisbon" ["search content"]
    ⟨some [dishNata]⟩ rfl rfl rfl
  have H3 := H.2.2.1 itinWorld0 [] "Lisbon" (some "Vegan") ["food"]
    ["culture"] ⟨some 38, some (-9), some [itinStop1]⟩ rfl rfl rfl rfl
  have H4 := H.2.2.2 fmWorld3 [] "Rome" none (some 3) ["snippet"]
    ⟨some 41, some 12, some fmRawDays⟩ rfl rfl rfl
  exact ⟨H1.1, H1.2.1, H1.2.2, H2.1.trans rfl, H2.2.1, H2.2.2,
    H3.1.trans rfl, H3.2.1, H3.2.2, H4.1.trans rfl, H4.2.1, H4.2.2⟩

end CityBites
